import Mathlib

/-!
Shallow embedding of `src/main.py` of the tube-recipe repository.

The program is a sequential pipeline: fetch a YouTube transcript, fetch video
metadata, extract a structured recipe via an LLM, assemble the final Recipe
and print it as JSON-LD.  External calls (`YouTubeTranscriptApi().fetch`,
`yt_dlp` `extract_info`, the OpenAI structured-output call) are modelled as
oracle functions passed in as parameters; a raised Python exception is an
`Except.error` carrying the exception message.  Side effects (`print`, and
the external calls themselves) are recorded in an explicit event trace.
-/

namespace TubeRecipe

/-- One observable event of a pipeline run: an external call or a printed
line.  `transcriptFetch` records the `languages` argument passed to the
caption-retrieval call; `videoInfoFetch` records the watch-page URL passed to
`yt_dlp`; `llmCall` records the title and transcript sent to the model. -/
inductive Event where
  | transcriptFetch : List String → Event
  | videoInfoFetch : String → Event
  | llmCall : String → String → Event
  | printed : String → Event
  deriving DecidableEq, Repr

/-- Embedding of `Settings` (main.py lines 9-21): the pydantic-settings
record, fields in declaration order.  Defaults are given by
`settingsDefault` below rather than by field initialisers. -/
structure Settings where
  openai_base_url : String
  openai_api_key : String
  openai_model : String
  video_id : String
  preferred_languages : String
  deriving DecidableEq, Repr

/-- The default `Settings` values from main.py lines 10-14 (the values used
when no environment variable overrides them). -/
def settingsDefault : Settings :=
  { openai_base_url := ""
    openai_api_key := ""
    openai_model := "gpt-4.1-mini"
    video_id := ""
    preferred_languages := "ko" }

/-- Embedding of Python's `s.split(",")`, accumulator form: the segments of
`s` between commas, in order.  Like Python, splitting the empty string
yields `[""]`, and adjacent commas yield empty segments. -/
def splitCommaAux (acc : List Char) : List Char → List String
  | [] => [String.mk acc.reverse]
  | c :: cs =>
      if c = ',' then String.mk acc.reverse :: splitCommaAux [] cs
      else splitCommaAux (c :: acc) cs

/-- Python's `s.split(",")`. -/
def pySplitComma (s : String) : List String :=
  splitCommaAux [] s.data

/-- Python's `s.strip()`: remove leading and trailing whitespace. -/
def pyStrip (s : String) : String :=
  String.mk (((s.data.dropWhile Char.isWhitespace).reverse.dropWhile Char.isWhitespace).reverse)

/-- Embedding of the `Settings.preferred_languages_list` property
(main.py lines 16-18): `[lang.strip() for lang in self.preferred_languages.split(",")]`. -/
def Settings.preferred_languages_list (s : Settings) : List String :=
  (pySplitComma s.preferred_languages).map (fun lang => pyStrip lang)

/-- Embedding of `VideoInfo` (main.py lines 27-30). -/
structure VideoInfo where
  title : String
  author : String
  thumbnail_url : String
  deriving DecidableEq, Repr

/-- Embedding of `HowToStep` (main.py lines 33-35).  The `type` field is a
Python `Literal["HowToStep"]` — a singleton type carrying no information —
so it is not a data field here; the serializer and the validator treat it as
the fixed literal. -/
structure HowToStep where
  text : String
  deriving DecidableEq, Repr

/-- Embedding of `HowToSection` (main.py lines 38-41); the
`Literal["HowToSection"]` tag is again a singleton type. -/
structure HowToSection where
  name : String
  itemListElement : List HowToStep
  deriving DecidableEq, Repr

/-- One element of `recipeInstructions`: the union
`HowToStep | HowToSection` (main.py line 57). -/
inductive InstructionItem where
  | stepItem : HowToStep → InstructionItem
  | sectionItem : HowToSection → InstructionItem
  deriving DecidableEq, Repr

/-- Embedding of `BaseRecipe` (main.py lines 44-57), fields in declaration
order.  `context : Literal["https://schema.org"]` and
`type : Literal["Recipe"]` are singleton types: every constructible
`BaseRecipe` carries exactly those values, so they are not data fields; the
serializer emits them as constants and the validator rejects anything else. -/
structure BaseRecipe where
  name : String
  cookTime : String
  description : String
  keywords : String
  prepTime : String
  recipeCategory : String
  recipeCuisine : String
  recipeIngredient : List String
  recipeInstructions : List InstructionItem
  deriving DecidableEq, Repr

/-- Embedding of `Recipe` (main.py lines 60-62): `BaseRecipe` plus the two
video-derived fields. -/
structure Recipe extends BaseRecipe where
  image : String
  author : String
  deriving DecidableEq, Repr

/-- Embedding of `Recipe.from_base_recipe` (main.py lines 64-70):
`cls(**base_recipe.model_dump(), image=video_info.thumbnail_url, author=video_info.author)`.
Every `BaseRecipe` field is passed through unchanged (the aliased
`@context`/`@type` singleton fields are re-filled with their only possible
value), and the two extra fields come from the `VideoInfo`. -/
def Recipe.from_base_recipe (base_recipe : BaseRecipe) (video_info : VideoInfo) : Recipe :=
  { toBaseRecipe := base_recipe
    image := video_info.thumbnail_url
    author := video_info.author }

/-- One caption entry as returned by `transcript.to_raw_data()`: only the
`"text"` field is consumed by the program (main.py line 108); the numeric
`start`/`duration` fields are never read and are omitted. -/
structure TranscriptEntry where
  text : String
  deriving DecidableEq, Repr

/-- The info dictionary returned by `yt_dlp`'s `extract_info`: only the
`"title"`, `"uploader"` and `"thumbnail"` keys are consumed (main.py
lines 90-92); each may be absent. -/
structure YdlInfo where
  title : Option String
  uploader : Option String
  thumbnail : Option String
  deriving DecidableEq, Repr

/-- The watch-page URL built in `get_video_info` (main.py line 82):
`f"https://www.youtube.com/watch?v={video_id}"`. -/
def watchUrl (video_id : String) : String :=
  "https://www.youtube.com/watch?v=" ++ video_id

/-- Embedding of `get_transcript` (main.py lines 99-109).  `fetch` is the
oracle for `YouTubeTranscriptApi().fetch(video_id, languages=...)`; it is
called with `settings.preferred_languages_list + ["en"]`.  On an exception
the error is printed and `None` returned; on success the entry texts are
joined with `" ".join(...)` (= `String.intercalate " "`).  Returns the
result together with the event trace of the call. -/
def get_transcript (fetch : List String → Except String (List TranscriptEntry))
    (settings : Settings) : Option String × List Event :=
  let langs := settings.preferred_languages_list ++ ["en"]
  match fetch langs with
  | Except.error e =>
      (none, [Event.transcriptFetch langs,
              Event.printed ("Error fetching transcript: " ++ e)])
  | Except.ok transcript =>
      (some (String.intercalate " " (transcript.map TranscriptEntry.text)),
       [Event.transcriptFetch langs])

/-- Embedding of `get_video_info` (main.py lines 73-96).  `extractInfo` is
the oracle for `ydl.extract_info(url, download=False)`: an exception is
`Except.error`, a `None` info object is `Except.ok none`.  On exception the
message is printed and `None` returned; on a `None` info object `None` is
returned with nothing printed; otherwise each consumed key is defaulted to
`""` when absent (`info.get(k) or ""`). -/
def get_video_info (extractInfo : String → Except String (Option YdlInfo))
    (video_id : String) : Option VideoInfo × List Event :=
  match extractInfo (watchUrl video_id) with
  | Except.error e =>
      (none, [Event.videoInfoFetch (watchUrl video_id),
              Event.printed ("Error fetching video info: " ++ e)])
  | Except.ok none =>
      (none, [Event.videoInfoFetch (watchUrl video_id)])
  | Except.ok (some info) =>
      (some { title := info.title.getD ""
              author := info.uploader.getD ""
              thumbnail_url := info.thumbnail.getD "" },
       [Event.videoInfoFetch (watchUrl video_id)])

/-- Embedding of `extract_recipe` (main.py lines 112-165).  `llm` is the
oracle for `client.responses.parse(...)` followed by `.output_parsed`: an
exception (including a schema-validation failure of the model output) is
`Except.error`, a `None` `output_parsed` is `Except.ok none`.  On exception
the message is printed and `None` returned; otherwise the parsed value is
returned as-is. -/
def extract_recipe (llm : String → String → Except String (Option BaseRecipe))
    (title : String) (transcript : String) : Option BaseRecipe × List Event :=
  match llm title transcript with
  | Except.error e =>
      (none, [Event.llmCall title transcript,
              Event.printed ("Error extracting recipe: " ++ e)])
  | Except.ok parsed =>
      (parsed, [Event.llmCall title transcript])

/-- Lowercase hex digit, as emitted by the JSON serializer for control
characters. -/
def hexDigit (n : Nat) : Char :=
  if n < 10 then Char.ofNat (48 + n) else Char.ofNat (87 + n)

/-- JSON string escaping as performed by pydantic's `model_dump_json`
(serde-style): `"`, `\`, backspace, form feed, newline, carriage return and
tab get two-character escapes, other control characters get `\u00XX`, and
everything else is passed through. -/
def jsonEscapeChar (c : Char) : String :=
  if c = '"' then "\\\""
  else if c = '\\' then "\\\\"
  else if c = '\x08' then "\\b"
  else if c = '\x0c' then "\\f"
  else if c = '\n' then "\\n"
  else if c = '\x0d' then "\\r"
  else if c = '\t' then "\\t"
  else if c.toNat < 32 then
    "\\u00" ++ String.singleton (hexDigit (c.toNat / 16))
            ++ String.singleton (hexDigit (c.toNat % 16))
  else String.singleton c

/-- A JSON string literal for `s`. -/
def jsonStr (s : String) : String :=
  "\"" ++ String.join (s.data.map jsonEscapeChar) ++ "\""

/-- A JSON array whose elements are already serialized. -/
def jsonArr (xs : List String) : String :=
  "[" ++ String.intercalate "," xs ++ "]"

/-- Serialization of a `HowToStep` under `model_dump_json(by_alias=True)`:
the `@type` alias with its fixed literal value, then `text`. -/
def HowToStep.model_dump (s : HowToStep) : String :=
  "\x7b\"@type\":\"HowToStep\",\"text\":" ++ jsonStr s.text ++ "\x7d"

/-- Serialization of a `HowToSection` under `model_dump_json(by_alias=True)`. -/
def HowToSection.model_dump (s : HowToSection) : String :=
  "\x7b\"@type\":\"HowToSection\",\"name\":" ++ jsonStr s.name ++
  ",\"itemListElement\":" ++ jsonArr (s.itemListElement.map HowToStep.model_dump) ++ "\x7d"

/-- Serialization of one `recipeInstructions` element. -/
def InstructionItem.model_dump : InstructionItem → String
  | InstructionItem.stepItem s => s.model_dump
  | InstructionItem.sectionItem s => s.model_dump

/-- Embedding of `recipe.model_dump_json(by_alias=True)` (main.py line 189):
compact JSON, fields in declaration order (`BaseRecipe` fields first, then
the `Recipe` subclass fields), with the aliased keys `@context`/`@type`
emitted as their fixed literal values. -/
def Recipe.model_dump_json (r : Recipe) : String :=
  "\x7b\"@context\":\"https://schema.org\",\"@type\":\"Recipe\"," ++
  ("\"name\":" ++ jsonStr r.name ++
   ",\"cookTime\":" ++ jsonStr r.cookTime ++
   ",\"description\":" ++ jsonStr r.description ++
   ",\"keywords\":" ++ jsonStr r.keywords ++
   ",\"prepTime\":" ++ jsonStr r.prepTime ++
   ",\"recipeCategory\":" ++ jsonStr r.recipeCategory ++
   ",\"recipeCuisine\":" ++ jsonStr r.recipeCuisine ++
   ",\"recipeIngredient\":" ++ jsonArr (r.recipeIngredient.map jsonStr) ++
   ",\"recipeInstructions\":" ++ jsonArr (r.recipeInstructions.map InstructionItem.model_dump) ++
   ",\"image\":" ++ jsonStr r.image ++
   ",\"author\":" ++ jsonStr r.author ++ "\x7d")

/-- Embedding of `main` (main.py lines 168-189) as its event trace:
transcript fetch first (abort on `None`), then video-info fetch (abort on
`None`), then the LLM extraction (abort on `None`), then assemble and print
the JSON-LD. -/
def main (tFetch : List String → Except String (List TranscriptEntry))
    (vFetch : String → Except String (Option YdlInfo))
    (llm : String → String → Except String (Option BaseRecipe))
    (settings : Settings) : List Event :=
  let video_id := settings.video_id
  let tr := get_transcript tFetch settings
  match tr.1 with
  | none => tr.2 ++ [Event.printed "Failed to retrieve transcript."]
  | some transcript_text =>
    let vi := get_video_info vFetch video_id
    match vi.1 with
    | none => tr.2 ++ vi.2 ++ [Event.printed "Failed to retrieve video information."]
    | some video_info =>
      let br := extract_recipe llm video_info.title transcript_text
      match br.1 with
      | none => tr.2 ++ vi.2 ++ br.2 ++ [Event.printed "Failed to extract recipe"]
      | some base_recipe =>
          tr.2 ++ vi.2 ++ br.2 ++
            [Event.printed (Recipe.from_base_recipe base_recipe video_info).model_dump_json]

/-!
Pydantic schema validation of the LLM output, modelled explicitly.  The
structured-output call validates the model's JSON against `BaseRecipe`; the
only value constraints in the schema (main.py lines 33-57) are the `Literal`
tags — `recipeCategory` is a plain `str` with no validator, the
six-category enumeration appearing only in the prompt text (main.py
line 126).  `Raw*` is the shape-correct untyped input; a `Literal` field
with a default may be absent (`none`) or must equal its literal.
-/

/-- Raw (pre-validation) `HowToStep`: the `@type` tag as an arbitrary
optional string. -/
structure RawHowToStep where
  type : Option String
  text : String
  deriving DecidableEq, Repr

/-- Raw (pre-validation) `HowToSection`. -/
structure RawHowToSection where
  type : Option String
  name : String
  itemListElement : List RawHowToStep
  deriving DecidableEq, Repr

/-- Raw element of `recipeInstructions`. -/
inductive RawInstructionItem where
  | stepItem : RawHowToStep → RawInstructionItem
  | sectionItem : RawHowToSection → RawInstructionItem
  deriving DecidableEq, Repr

/-- Raw (pre-validation) `BaseRecipe`: every field shape-correct, the two
`Literal` fields as arbitrary optional strings, `recipeCategory` an
arbitrary string. -/
structure RawBaseRecipe where
  context : Option String
  type : Option String
  name : String
  cookTime : String
  description : String
  keywords : String
  prepTime : String
  recipeCategory : String
  recipeCuisine : String
  recipeIngredient : List String
  recipeInstructions : List RawInstructionItem
  deriving DecidableEq, Repr

/-- Validation of a `Literal[lit]` field with default `lit`: an absent value
takes the default, a present value must equal the literal. -/
def validateLit (lit : String) : Option String → Bool
  | none => true
  | some v => v == lit

/-- Pydantic validation of a raw `HowToStep`. -/
def validateHowToStep (r : RawHowToStep) : Option HowToStep :=
  if validateLit "HowToStep" r.type then some { text := r.text } else none

/-- Pydantic validation of a raw `HowToSection`. -/
def validateHowToSection (r : RawHowToSection) : Option HowToSection :=
  if validateLit "HowToSection" r.type then
    (r.itemListElement.mapM validateHowToStep).map
      (fun items => { name := r.name, itemListElement := items })
  else none

/-- Pydantic validation of a raw `recipeInstructions` element. -/
def validateInstructionItem : RawInstructionItem → Option InstructionItem
  | RawInstructionItem.stepItem s => (validateHowToStep s).map InstructionItem.stepItem
  | RawInstructionItem.sectionItem s => (validateHowToSection s).map InstructionItem.sectionItem

/-- Pydantic validation of a raw `BaseRecipe`: the `@context`/`@type`
literals and the instruction tags are checked; every other field — in
particular `recipeCategory` — is accepted as-is. -/
def validateBaseRecipe (r : RawBaseRecipe) : Option BaseRecipe :=
  if validateLit "https://schema.org" r.context && validateLit "Recipe" r.type then
    (r.recipeInstructions.mapM validateInstructionItem).map
      (fun instrs =>
        { name := r.name, cookTime := r.cookTime, description := r.description,
          keywords := r.keywords, prepTime := r.prepTime,
          recipeCategory := r.recipeCategory, recipeCuisine := r.recipeCuisine,
          recipeIngredient := r.recipeIngredient, recipeInstructions := instrs })
  else none

/-- The six categories enumerated in the extraction prompt (main.py
line 126). -/
def promptCategories : List String :=
  ["appetizer", "main course", "side dish", "dessert", "beverage", "snack"]

/-- Spec-side definition (not from the source): the spec's transcript
formula `t1 ++ " " ++ t2 ++ ... ++ " " ++ tN` — the texts joined by exactly
one space, in order, nothing added or dropped. -/
def specJoin : List String → String
  | [] => ""
  | [t] => t
  | t :: ts => t ++ " " ++ specJoin ts

/-- Helper for relating `String.intercalate` to `specJoin`. -/
def tailJoin (s : String) : List String → String
  | [] => ""
  | a :: as => s ++ a ++ tailJoin s as

/-- A raw LLM output whose `recipeCategory` ("soup") is outside the six
categories enumerated in the prompt, but which is otherwise schema-correct. -/
def rawCategoryExample : RawBaseRecipe :=
  { context := some "https://schema.org"
    type := some "Recipe"
    name := "Kimchi Stew"
    cookTime := "PT30M"
    description := "A hearty Korean stew."
    keywords := "korean,stew"
    prepTime := "PT10M"
    recipeCategory := "soup"
    recipeCuisine := "Korean"
    recipeIngredient := ["1 cup kimchi"]
    recipeInstructions := [RawInstructionItem.stepItem { type := some "HowToStep", text := "Boil." }] }

/-- The `BaseRecipe` that pydantic validation produces from
`rawCategoryExample`. -/
def acceptedCategoryExample : BaseRecipe :=
  { name := "Kimchi Stew"
    cookTime := "PT30M"
    description := "A hearty Korean stew."
    keywords := "korean,stew"
    prepTime := "PT10M"
    recipeCategory := "soup"
    recipeCuisine := "Korean"
    recipeIngredient := ["1 cup kimchi"]
    recipeInstructions := [InstructionItem.stepItem { text := "Boil." }] }

/-! ## Helper lemmas -/

theorem intercalate_go_eq (s : String) (as : List String) :
    ∀ acc, String.intercalate.go acc s as = acc ++ tailJoin s as := by
  induction as with
  | nil => intro acc; simp [String.intercalate.go, tailJoin]
  | cons a as ih =>
      intro acc
      simp [String.intercalate.go, tailJoin, ih, String.append_assoc]

theorem specJoin_cons (a : String) (as : List String) :
    specJoin (a :: as) = a ++ tailJoin " " as := by
  induction as generalizing a with
  | nil => simp [specJoin, tailJoin]
  | cons b bs ih =>
      simp [specJoin, tailJoin, ih, String.append_assoc]

/-- Python's `" ".join(l)` (= `String.intercalate " " l`) is exactly the
spec's single-space join formula. -/
theorem intercalate_eq_specJoin (l : List String) :
    String.intercalate " " l = specJoin l := by
  cases l with
  | nil => rfl
  | cons a as => simp [String.intercalate, intercalate_go_eq, specJoin_cons]

/-- The trace of any `get_transcript` run contains exactly one
caption-retrieval call, whose languages argument is
`preferred_languages_list ++ ["en"]`. -/
theorem get_transcript_trace_langs
    (fetch : List String → Except String (List TranscriptEntry)) (settings : Settings) :
    (get_transcript fetch settings).2.filterMap
        (fun ev => match ev with
          | Event.transcriptFetch langs => some langs
          | _ => none) =
      [settings.preferred_languages_list ++ ["en"]] := by
  cases h : fetch (settings.preferred_languages_list ++ ["en"]) <;>
    simp [get_transcript, h]

/-! ## Claim theorems -/

/-- C1: for every transcript response consisting of caption entries with
texts `t1..tN` in chronological order, `get_transcript` returns the single
string `t1 ++ " " ++ t2 ++ ... ++ " " ++ tN` (`specJoin` is exactly that
formula): the entry texts joined by exactly one space, in their original
order, with nothing added or dropped. -/
theorem get_transcript_joins_texts
    (fetch : List String → Except String (List TranscriptEntry))
    (settings : Settings) (entries : List TranscriptEntry)
    (h : fetch (settings.preferred_languages_list ++ ["en"]) = Except.ok entries) :
    (get_transcript fetch settings).1 =
      some (specJoin (entries.map TranscriptEntry.text)) := by
  simp [get_transcript, h, intercalate_eq_specJoin]

/-- C1 witness: a concrete two-entry response joins to the concrete
single-space string. -/
theorem get_transcript_joins_texts_witness :
    (get_transcript
        (fun _ => Except.ok [⟨"First, chop the onions."⟩, ⟨"Then fry until golden."⟩])
        settingsDefault).1 =
      some "First, chop the onions. Then fry until golden." := by
  have h := get_transcript_joins_texts
    (fun _ => Except.ok [⟨"First, chop the onions."⟩, ⟨"Then fry until golden."⟩])
    settingsDefault
    [⟨"First, chop the onions."⟩, ⟨"Then fry until golden."⟩] rfl
  exact h.trans (by decide)

/-- C2: `Recipe.from_base_recipe b v` copies every `BaseRecipe` field of `b`
verbatim (the `@context`/`@type` fields are singleton `Literal` types, equal
on any two values by construction), sets `image := v.thumbnail_url` and
`author := v.author`, and — being a total function — never fails on
well-typed inputs. -/
theorem from_base_recipe_fields (b : BaseRecipe) (v : VideoInfo) :
    (Recipe.from_base_recipe b v).name = b.name ∧
    (Recipe.from_base_recipe b v).cookTime = b.cookTime ∧
    (Recipe.from_base_recipe b v).description = b.description ∧
    (Recipe.from_base_recipe b v).keywords = b.keywords ∧
    (Recipe.from_base_recipe b v).prepTime = b.prepTime ∧
    (Recipe.from_base_recipe b v).recipeCategory = b.recipeCategory ∧
    (Recipe.from_base_recipe b v).recipeCuisine = b.recipeCuisine ∧
    (Recipe.from_base_recipe b v).recipeIngredient = b.recipeIngredient ∧
    (Recipe.from_base_recipe b v).recipeInstructions = b.recipeInstructions ∧
    (Recipe.from_base_recipe b v).image = v.thumbnail_url ∧
    (Recipe.from_base_recipe b v).author = v.author :=
  ⟨rfl, rfl, rfl, rfl, rfl, rfl, rfl, rfl, rfl, rfl, rfl⟩

/-- C3: the serialized JSON-LD of every `Recipe` starts with the literal
pairs `"@context":"https://schema.org"` and `"@type":"Recipe"` — they occur
in the output of every possible input, because the two fields are singleton
`Literal` types that no input can set to anything else. -/
theorem model_dump_json_constant_pairs (r : Recipe) :
    ∃ rest, r.model_dump_json =
      "\x7b\"@context\":\"https://schema.org\",\"@type\":\"Recipe\"," ++ rest :=
  ⟨_, rfl⟩

/-- C4 counterexample: schema validation accepts a `BaseRecipe` whose
`recipeCategory` ("soup") is not one of the six values enumerated in the
prompt, refuting the claim that every accepted value has an enumerated
category. -/
theorem recipeCategory_not_enforced_counterexample :
    validateBaseRecipe rawCategoryExample = some acceptedCategoryExample ∧
    acceptedCategoryExample.recipeCategory ∉ promptCategories := by
  constructor
  · decide
  · decide

/-- C4 (amended): the extractor's schema validation does not constrain
`recipeCategory` at all — any accepted `BaseRecipe` carries the raw
`recipeCategory` string through unchanged; the six-value enumeration exists
only in the prompt text. -/
theorem validateBaseRecipe_category_unchecked (r : RawBaseRecipe) (b : BaseRecipe)
    (h : validateBaseRecipe r = some b) :
    b.recipeCategory = r.recipeCategory := by
  unfold validateBaseRecipe at h
  by_cases hc : (validateLit "https://schema.org" r.context && validateLit "Recipe" r.type) = true
  · rw [if_pos hc] at h
    cases hm : r.recipeInstructions.mapM validateInstructionItem with
    | none => rw [hm] at h; simp at h
    | some instrs =>
        rw [hm] at h
        rw [Option.map_some'] at h
        cases h
        rfl
  · rw [if_neg hc] at h; simp at h

/-- C4 witness: applying the amended theorem to the concrete out-of-enum
example shows the category "soup" passes through validation unchanged. -/
theorem validateBaseRecipe_category_unchecked_witness :
    acceptedCategoryExample.recipeCategory = rawCategoryExample.recipeCategory :=
  validateBaseRecipe_category_unchecked rawCategoryExample acceptedCategoryExample (by decide)

/-- C5 counterexample: a transcript fetch that succeeds with zero caption
entries yields the empty-string transcript (not an absent result), so the
pipeline does NOT terminate: it goes on to call the video-metadata fetcher
and never prints the transcript-failure message — refuting the
"returns no caption entries" half of the claim. -/
theorem empty_transcript_continues_counterexample :
    (get_transcript (fun _ => Except.ok []) settingsDefault).1 = some "" ∧
    Event.videoInfoFetch (watchUrl "") ∈
      main (fun _ => Except.ok []) (fun _ => Except.ok none)
        (fun _ _ => Except.ok none) settingsDefault ∧
    Event.printed "Failed to retrieve transcript." ∉
      main (fun _ => Except.ok []) (fun _ => Except.ok none)
        (fun _ _ => Except.ok none) settingsDefault := by
  refine ⟨rfl, ?_, ?_⟩ <;> decide

/-- C5 (amended): if the transcript fetch raises, the pipeline terminates
before calling the video-metadata fetcher or the LLM extractor, printing the
logged error and the failure message instead of JSON-LD.  (A fetch that
succeeds with zero entries yields the empty-string transcript and the
pipeline continues.) -/
theorem transcript_error_short_circuits
    (tFetch : List String → Except String (List TranscriptEntry))
    (vFetch : String → Except String (Option YdlInfo))
    (llm : String → String → Except String (Option BaseRecipe))
    (settings : Settings) (e : String)
    (h : tFetch (settings.preferred_languages_list ++ ["en"]) = Except.error e) :
    main tFetch vFetch llm settings =
      [Event.transcriptFetch (settings.preferred_languages_list ++ ["en"]),
       Event.printed ("Error fetching transcript: " ++ e),
       Event.printed "Failed to retrieve transcript."] ∧
    (∀ u, Event.videoInfoFetch u ∉ main tFetch vFetch llm settings) ∧
    (∀ t tr, Event.llmCall t tr ∉ main tFetch vFetch llm settings) := by
  have hm : main tFetch vFetch llm settings =
      [Event.transcriptFetch (settings.preferred_languages_list ++ ["en"]),
       Event.printed ("Error fetching transcript: " ++ e),
       Event.printed "Failed to retrieve transcript."] := by
    simp [main, get_transcript, h]
  refine ⟨hm, fun u => ?_, fun t tr => ?_⟩ <;> rw [hm] <;> simp

/-- C5 witness: a concrete raising fetch produces exactly the short-circuit
trace. -/
theorem transcript_error_short_circuits_witness :
    main (fun _ => Except.error "no captions") (fun _ => Except.ok none)
        (fun _ _ => Except.ok none) settingsDefault =
      [Event.transcriptFetch ["ko", "en"],
       Event.printed "Error fetching transcript: no captions",
       Event.printed "Failed to retrieve transcript."] := by
  have h := transcript_error_short_circuits (fun _ => Except.error "no captions")
      (fun _ => Except.ok none) (fun _ _ => Except.ok none) settingsDefault "no captions" rfl
  exact h.1.trans (by decide)

/-- C6: when the metadata fetch raises, the exception is caught inside
`get_video_info` — which logs the error and returns an absent result rather
than propagating — and the pipeline then prints the failure message and
makes no LLM call. -/
theorem metadata_error_handling
    (tFetch : List String → Except String (List TranscriptEntry))
    (vFetch : String → Except String (Option YdlInfo))
    (llm : String → String → Except String (Option BaseRecipe))
    (settings : Settings) (entries : List TranscriptEntry) (e : String)
    (ht : tFetch (settings.preferred_languages_list ++ ["en"]) = Except.ok entries)
    (hv : vFetch (watchUrl settings.video_id) = Except.error e) :
    get_video_info vFetch settings.video_id =
      (none, [Event.videoInfoFetch (watchUrl settings.video_id),
              Event.printed ("Error fetching video info: " ++ e)]) ∧
    main tFetch vFetch llm settings =
      [Event.transcriptFetch (settings.preferred_languages_list ++ ["en"]),
       Event.videoInfoFetch (watchUrl settings.video_id),
       Event.printed ("Error fetching video info: " ++ e),
       Event.printed "Failed to retrieve video information."] ∧
    (∀ t tr, Event.llmCall t tr ∉ main tFetch vFetch llm settings) := by
  have hg : get_video_info vFetch settings.video_id =
      (none, [Event.videoInfoFetch (watchUrl settings.video_id),
              Event.printed ("Error fetching video info: " ++ e)]) := by
    simp [get_video_info, hv]
  have hm : main tFetch vFetch llm settings =
      [Event.transcriptFetch (settings.preferred_languages_list ++ ["en"]),
       Event.videoInfoFetch (watchUrl settings.video_id),
       Event.printed ("Error fetching video info: " ++ e),
       Event.printed "Failed to retrieve video information."] := by
    simp [main, get_transcript, get_video_info, ht, hv]
  refine ⟨hg, hm, fun t tr => ?_⟩
  rw [hm]
  simp

/-- C6 witness: a concrete raising metadata fetch is caught, logged,
surfaces as `none`, and the pipeline prints the failure message. -/
theorem metadata_error_handling_witness :
    get_video_info (fun _ => Except.error "denied") "" =
      (none, [Event.videoInfoFetch "https://www.youtube.com/watch?v=",
              Event.printed "Error fetching video info: denied"]) ∧
    main (fun _ => Except.ok [⟨"hello"⟩]) (fun _ => Except.error "denied")
        (fun _ _ => Except.ok none) settingsDefault =
      [Event.transcriptFetch ["ko", "en"],
       Event.videoInfoFetch "https://www.youtube.com/watch?v=",
       Event.printed "Error fetching video info: denied",
       Event.printed "Failed to retrieve video information."] := by
  have h := metadata_error_handling (fun _ => Except.ok [⟨"hello"⟩])
      (fun _ => Except.error "denied") (fun _ _ => Except.ok none)
      settingsDefault [⟨"hello"⟩] "denied" rfl rfl
  exact ⟨h.1.trans (by decide), h.2.1.trans (by decide)⟩

/-- C7: the trace of `get_transcript` contains exactly one caption-retrieval
call, and the languages argument of that call is exactly the ordered list
obtained by splitting the preferred-languages setting on commas and trimming
each element, with a single trailing "en" appended. -/
theorem transcript_fetch_languages
    (fetch : List String → Except String (List TranscriptEntry)) (settings : Settings) :
    (get_transcript fetch settings).2.filterMap
        (fun ev => match ev with
          | Event.transcriptFetch langs => some langs
          | _ => none) =
      [((pySplitComma settings.preferred_languages).map (fun lang => pyStrip lang)) ++ ["en"]] := by
  rw [get_transcript_trace_langs]
  rfl

/-- C8: a successful metadata fetch always yields a `VideoInfo` with all
three fields present, each being the service's value defaulted to the empty
string; in particular when the service omits title, uploader or thumbnail,
the corresponding field is `""`. -/
theorem video_info_field_defaults (video_id : String) (info : YdlInfo) :
    ((get_video_info (fun _ => Except.ok (some info)) video_id).1 =
      some { title := info.title.getD "", author := info.uploader.getD "",
             thumbnail_url := info.thumbnail.getD "" }) ∧
    (info.title = none →
      (get_video_info (fun _ => Except.ok (some info)) video_id).1.map VideoInfo.title
        = some "") ∧
    (info.uploader = none →
      (get_video_info (fun _ => Except.ok (some info)) video_id).1.map VideoInfo.author
        = some "") ∧
    (info.thumbnail = none →
      (get_video_info (fun _ => Except.ok (some info)) video_id).1.map VideoInfo.thumbnail_url
        = some "") := by
  refine ⟨rfl, fun h => ?_, fun h => ?_, fun h => ?_⟩ <;> simp [get_video_info, h]

/-- C8 witness: a response omitting all three fields yields the
all-empty-string `VideoInfo`. -/
theorem video_info_field_defaults_witness :
    ((get_video_info (fun _ => Except.ok (some ⟨none, none, none⟩)) "abc123").1.map
        VideoInfo.title = some "") ∧
    ((get_video_info (fun _ => Except.ok (some ⟨none, none, none⟩)) "abc123").1.map
        VideoInfo.author = some "") ∧
    ((get_video_info (fun _ => Except.ok (some ⟨none, none, none⟩)) "abc123").1.map
        VideoInfo.thumbnail_url = some "") := by
  have h := video_info_field_defaults "abc123" ⟨none, none, none⟩
  exact ⟨h.2.1 rfl, h.2.2.1 rfl, h.2.2.2 rfl⟩

/-- C9: with the empty preferred-languages setting, the derived list is the
one-element list containing the empty string (not the empty list), so the
caption-retrieval call is made with languages `["", "en"]`. -/
theorem empty_preferred_languages
    (settings : Settings) (fetch : List String → Except String (List TranscriptEntry))
    (h : settings.preferred_languages = "") :
    settings.preferred_languages_list = [""] ∧
    (get_transcript fetch settings).2.filterMap
        (fun ev => match ev with
          | Event.transcriptFetch langs => some langs
          | _ => none) = [["", "en"]] := by
  have h1 : settings.preferred_languages_list = [""] := by
    simp only [Settings.preferred_languages_list, h]
    decide
  refine ⟨h1, ?_⟩
  rw [get_transcript_trace_langs, h1]
  simp

/-- C9 witness: the default settings with `preferred_languages := ""` derive
`[""]` and the call is made with `["", "en"]`. -/
theorem empty_preferred_languages_witness :
    ({ settingsDefault with preferred_languages := "" } : Settings).preferred_languages_list
      = [""] ∧
    (get_transcript (fun _ => Except.ok [])
        { settingsDefault with preferred_languages := "" }).2.filterMap
        (fun ev => match ev with
          | Event.transcriptFetch langs => some langs
          | _ => none) = [["", "en"]] :=
  empty_preferred_languages { settingsDefault with preferred_languages := "" }
    (fun _ => Except.ok []) rfl

/-- C10: `get_video_info` returns an absent result both when the extraction
call raises (with an error line printed) and when the service returns a
null info object without raising — and in that second case the trace holds
no printed event at all, only the call itself. -/
theorem get_video_info_absent_cases (video_id : String) (e : String) :
    ((get_video_info (fun _ => Except.error e) video_id).1 = none) ∧
    ((get_video_info (fun _ => Except.error e) video_id).2 =
      [Event.videoInfoFetch (watchUrl video_id),
       Event.printed ("Error fetching video info: " ++ e)]) ∧
    ((get_video_info (fun _ => Except.ok none) video_id).1 = none) ∧
    ((get_video_info (fun _ => Except.ok none) video_id).2 =
      [Event.videoInfoFetch (watchUrl video_id)]) :=
  ⟨rfl, rfl, rfl, rfl⟩

end TubeRecipe
